import Mathlib

/-!
Verification development for the GD Team OLLAMA Assistant server
(`server.js`: an Express orchestration layer in front of a local Ollama
inference endpoint).

The JavaScript source is shallowly embedded: strings are `List Char`,
the in-memory `conversationHistories` object is an association list,
each request handler is a pure function from its request payload, the
session store and the outcomes of the external calls (Ollama inference,
`JSON.parse`, `pdf-parse`) to its HTTP response envelope plus the
updated store.  External services are parameters of the handler
functions; everything the repository itself computes is embedded
directly from the source.
-/

namespace OllamaAssistant

/-- Strings of the JavaScript program, embedded as lists of characters. -/
abbrev Str := List Char

/-- The apostrophe character (U+0027), used inside several source string literals. -/
def apos : Char := Char.ofNat 39

/-- Whitespace as recognised by JavaScript `String.prototype.trim`
(ASCII whitespace, NBSP, the Unicode line separators and the BOM;
the remaining exotic Unicode space code points never occur in the
fixed texts of this program). -/
def isJsWs (c : Char) : Bool :=
  c == ' ' || c == '\t' || c == '\n' || c == '\r' ||
  c == Char.ofNat 11 || c == Char.ofNat 12 || c == Char.ofNat 160 ||
  c == Char.ofNat 0x2028 || c == Char.ofNat 0x2029 || c == Char.ofNat 0xFEFF

/-- JavaScript `s.trim()`: strip leading and trailing whitespace. -/
def trimStr (s : Str) : Str :=
  ((s.dropWhile isJsWs).reverse.dropWhile isJsWs).reverse

/-- JavaScript `s.toLowerCase()` (the program only ever lowercases ASCII command
markers, for which `Char.toLower` agrees with JavaScript). -/
def toLowerStr (s : Str) : Str := s.map Char.toLower

/-! ## Format converters (`csvToJson` / `jsonToCsv` in `server.js`)

`jsonToCsv` wraps the `csv-stringify` library (`header: true`), `csvToJson`
wraps the `csv-parse` library (`columns: true, skip_empty_lines: true`).
The libraries are external dependencies; they are embedded here with the
standard delimited-text semantics the spec describes for them: `,` as
delimiter, `"` as quote and escape character, `\n` as record delimiter,
fields quoted exactly when they contain a delimiter, quote or record
delimiter, a header row naming the columns, empty lines skipped on parse
and mismatched column counts a parse error. -/

/-- One tabular record: an ordered field map, as a JavaScript object
(keys are unique in any object produced by the runtime). -/
abbrev Record := List (Str × Str)

/-- Column names of a record, in insertion order (`Object.keys`). -/
def keysOf (r : Record) : List Str := r.map Prod.fst

/-- Field access `record[column]`, with a missing key rendered as the empty
cell (csv-stringify writes `''` for `undefined`). -/
def lookupField (r : Record) (k : Str) : Str :=
  ((r.find? (fun p => p.1 == k)).map Prod.snd).getD []

/-- Does csv-stringify quote this cell?  (contains delimiter, quote char or a
record-delimiter character). -/
def needsQuoting (s : Str) : Bool :=
  s.any (fun c => c == ',' || c == '"' || c == '\n' || c == '\r')

/-- Double every quote character (the CSV escape rule inside quoted cells). -/
def escQuotes : Str → Str
  | [] => []
  | c :: cs => if c = '"' then '"' :: '"' :: escQuotes cs else c :: escQuotes cs

/-- Render one cell, quoting it exactly when needed. -/
def escapeField (s : Str) : Str :=
  if needsQuoting s then '"' :: (escQuotes s ++ ['"']) else s

/-- Join rendered cells with the `,` delimiter. -/
def joinComma : List Str → Str
  | [] => []
  | [f] => f
  | f :: g :: t => f ++ ',' :: joinComma (g :: t)

/-- Render one output line (cells, escaped, comma-joined, newline-terminated;
csv-stringify terminates every record, the last one included). -/
def renderLine (cells : List Str) : Str :=
  joinComma (cells.map escapeField) ++ ['\n']

/-- `jsonToCsv` (`server.js`): an empty record list resolves to the empty
string; otherwise a header row from the keys of the first record, then one
row per record with the cells looked up by column name. -/
def jsonToCsv (rs : List Record) : Str :=
  match rs with
  | [] => []
  | r0 :: _ =>
      renderLine (keysOf r0) ++
        (rs.map (fun r => renderLine ((keysOf r0).map (fun k => lookupField r k)))).flatten

/-- Parse an unquoted cell: consume up to the next delimiter or record
delimiter, returning the cell and the unconsumed remainder. -/
def parseUnquoted : Str → Str × Str
  | [] => ([], [])
  | c :: rest =>
      if c = ',' ∨ c = '\n' then ([], c :: rest)
      else
        let p := parseUnquoted rest
        (c :: p.1, p.2)

/-- Parse the body of a quoted cell (the opening quote already consumed):
a doubled quote is a literal quote, a single quote closes the cell, and
end of input inside the quotes is a parse error. -/
def parseQuoted : Str → Option (Str × Str)
  | [] => none
  | c :: rest =>
      if c = '"' then
        match rest with
        | [] => some ([], [])
        | c2 :: rest2 =>
            if c2 = '"' then (parseQuoted rest2).map (fun p => ('"' :: p.1, p.2))
            else some ([], c2 :: rest2)
      else (parseQuoted rest).map (fun p => (c :: p.1, p.2))

/-- Parse one cell: quoted if it starts with the quote character, unquoted
otherwise. -/
def parseField : Str → Option (Str × Str)
  | [] => some ([], [])
  | c :: rest =>
      if c = '"' then parseQuoted rest
      else some (parseUnquoted (c :: rest))

/-- Parse one row of cells (fuelled: one unit of fuel per cell, so any call
with more fuel than characters terminates with fuel to spare).  Returns the
cells and the remainder after the row's record delimiter; a character other
than a delimiter after a closing quote is a parse error. -/
def parseRecordF : Nat → Str → Option (List Str × Str)
  | 0, _ => none
  | fuel + 1, s =>
      match parseField s with
      | none => none
      | some (f, rest) =>
          match rest with
          | [] => some ([f], [])
          | c :: rest2 =>
              if c = ',' then (parseRecordF fuel rest2).map (fun p => (f :: p.1, p.2))
              else if c = '\n' then some ([f], rest2)
              else none

/-- Parse all rows (fuelled: one unit of fuel per row or skipped empty line).
An empty line — a record delimiter with no cell content before it — is
skipped (`skip_empty_lines: true`). -/
def parseRowsF : Nat → Str → Option (List (List Str))
  | 0, _ => none
  | fuel + 1, s =>
      match s with
      | [] => some []
      | c :: rest =>
          if c = '\n' then parseRowsF fuel rest
          else
            match parseRecordF ((c :: rest).length + 1) (c :: rest) with
            | none => none
            | some (fs, rest2) => (parseRowsF fuel rest2).map (fs :: ·)

/-- `csvToJson` (`server.js`): parse the delimited text, take the first row
as the header, and map every following row to a record keyed by the header;
a row whose cell count differs from the header is a parse error
(`csv-parse` raises `Invalid Record Length` under `columns: true`). -/
def csvToJson (s : Str) : Option (List Record) :=
  match parseRowsF (s.length + 1) s with
  | none => none
  | some [] => some []
  | some (header :: rows) =>
      if rows.all (fun r => r.length == header.length) then
        some (rows.map (fun r => header.zip r))
      else none

/-- A terminator shape for the text following a rendered cell: end of input,
a delimiter or a record delimiter (used by the round-trip development). -/
def FieldStop (rest : Str) : Prop :=
  rest = [] ∨ (∃ r, rest = ',' :: r) ∨ (∃ r, rest = '\n' :: r)

/-! ## Small string utilities used by the handlers -/

/-- Split a string around the first occurrence of `pat`, returning the text
before and after it, or `none` if `pat` does not occur. -/
def splitFirst (pat : Str) : Str → Option (Str × Str)
  | [] => if pat.isEmpty then some ([], []) else none
  | c :: rest =>
      if pat.isPrefixOf (c :: rest) then some ([], (c :: rest).drop pat.length)
      else (splitFirst pat rest).map (fun p => (c :: p.1, p.2))

/-- JavaScript `s.replace(pat, repl)` for a plain-string first occurrence. -/
def replaceFirst (pat repl s : Str) : Str :=
  match splitFirst pat s with
  | some p => p.1 ++ repl ++ p.2
  | none => s

/-- Opening fence of an embedded JSON block. -/
def jsonFenceOpen : Str := "```json\n".toList

/-- Closing fence of an embedded JSON block. -/
def jsonFenceClose : Str := "\n```".toList

/-- Models the regex match `/```json\n([\s\S]*?)\n```/` used by `/generate-csv`
and `/analyze-image`: the captured group between the first opening fence and
the (lazy) first closing fence after it.  (The regex engine's retry at a
later opening fence when the first one is unclosed is not reproduced; no
stated property depends on it.) -/
def findJsonBlock (s : Str) : Option Str :=
  match splitFirst jsonFenceOpen s with
  | none => none
  | some p =>
      match splitFirst jsonFenceClose p.2 with
      | none => none
      | some q => some q.1

/-- Left and right curly brace characters (kept out of string literals). -/
def lbrace : Char := Char.ofNat 123

/-- Right curly brace character. -/
def rbrace : Char := Char.ofNat 125

/-- JSON string escaping for one character. -/
def jsonEscapeChar (c : Char) : Str :=
  if c = '"' then ['\\', '"']
  else if c = '\\' then ['\\', '\\']
  else if c = '\n' then ['\\', 'n']
  else if c = '\r' then ['\\', 'r']
  else if c = '\t' then ['\\', 't']
  else [c]

/-- JSON string escaping. -/
def jsonEscape (s : Str) : Str := (s.map jsonEscapeChar).flatten

/-- Serialize one record as a JSON object. -/
def jsonStringifyRecord (r : Record) : Str :=
  lbrace :: (joinComma (r.map (fun p =>
    '"' :: (jsonEscape p.1 ++ '"' :: ':' :: ' ' :: '"' :: (jsonEscape p.2 ++ ['"']))))
      ++ [rbrace])

/-- Models `JSON.stringify(records, null, 2)` on the arrays of flat
string-valued records this program produces.  The pretty-printer's
indentation and line breaks are not reproduced: the serialized text is only
ever interpolated into prompt bodies, which no stated property inspects. -/
def jsonStringifyRecords (rs : List Record) : Str :=
  '[' :: (joinComma (rs.map jsonStringifyRecord) ++ [']'])

/-! ## Data model: messages, sessions and the session store -/

/-- Message roles of the conversation history. -/
inductive Role
  | system
  | user
  | assistant
deriving DecidableEq, Repr

/-- One history entry: `{ role, content, images? }` (the `images` key is only
ever set on the `/analyze-image` user message; absent is the empty list). -/
structure Message where
  role : Role
  content : Str
  images : List Str := []
deriving DecidableEq, Repr

/-- Build a plain message without images. -/
def mkMsg (r : Role) (c : Str) : Message := ⟨r, c, []⟩

/-- The `analyzedData` payload of a session: a record array (from CSV
analysis) or raw extracted text (from PDF analysis). -/
inductive AnalyzedData
  | records (rs : List Record)
  | text (t : Str)
deriving DecidableEq, Repr

/-- One session of `conversationHistories`. -/
structure Session where
  history : List Message
  analyzedData : Option AnalyzedData
  analyzedImage : Option Str
deriving DecidableEq, Repr

/-- The freshly initialised session `{ history: [], analyzedData: null,
analyzedImage: null }`. -/
def emptySession : Session := ⟨[], none, none⟩

/-- The global `conversationHistories` object, as an association list from
session id to session. -/
abbrev Store := List (Str × Session)

/-- Property lookup `conversationHistories[sessionId]`. -/
def findSession : Store → Str → Option Session
  | [], _ => none
  | (k, v) :: t, id => if k == id then some v else findSession t id

/-- Property assignment `conversationHistories[sessionId] = session` (the
source mutates the session object in place; the embedding writes the updated
session back under its id). -/
def setSession : Store → Str → Session → Store
  | [], id, s => [(id, s)]
  | (k, v) :: t, id, s => if k == id then (id, s) :: t else (k, v) :: setSession t id s

/-- Property deletion `delete conversationHistories[sessionId]`. -/
def eraseSession : Store → Str → Store
  | [], _ => []
  | (k, v) :: t, id => if k == id then eraseSession t id else (k, v) :: eraseSession t id

/-- JavaScript truthiness of an optional string request field: `undefined`
and the empty string are falsy. -/
def falsyOpt : Option Str → Bool
  | none => true
  | some s => s.isEmpty

/-- The shared session-resolution pattern of the handlers:
`if (!sessionId || !conversationHistories[sessionId]) { sessionId = uuidv4();
conversationHistories[sessionId] = { history: [], analyzedData: null,
analyzedImage: null }; }`.  The fresh id produced by `uuidv4()` is a
parameter.  Returns the effective id, the resolved session and the store. -/
def resolveSession (store : Store) (sid : Option Str) (fresh : Str) :
    Str × Session × Store :=
  match sid with
  | some id =>
      if id.isEmpty then (fresh, emptySession, setSession store fresh emptySession)
      else
        match findSession store id with
        | some s => (id, s, store)
        | none => (fresh, emptySession, setSession store fresh emptySession)
  | none => (fresh, emptySession, setSession store fresh emptySession)

/-! ## Response classifier -/

/-- Kind of a classified directive. -/
inductive DirectiveKind
  | none
  | generate_csv
  | generate_image
deriving DecidableEq, Repr

/-- Result of classifying a model output text. -/
structure Directive where
  kind : DirectiveKind
  instructionText : Str
deriving DecidableEq, Repr

/-- The `CSV_REQUEST:` directive marker. -/
def csvMarker : Str := "CSV_REQUEST:".toList

/-- The `IMAGE_REQUEST:` directive marker. -/
def imageMarker : Str := "IMAGE_REQUEST:".toList

/-- Response classification as inlined in the `/chat`, `/analyze-csv` and
`/analyze-pdf` handlers: `ollamaResponse.startsWith('CSV_REQUEST:')` first,
then `.startsWith('IMAGE_REQUEST:')`; on a match the instruction is
`ollamaResponse.substring(marker.length).trim()`; otherwise the kind is
`none` and the full text is the user-facing answer. -/
def classifyCsvFirst (t : Str) : Directive :=
  if csvMarker.isPrefixOf t then
    ⟨.generate_csv, trimStr (t.drop csvMarker.length)⟩
  else if imageMarker.isPrefixOf t then
    ⟨.generate_image, trimStr (t.drop imageMarker.length)⟩
  else ⟨.none, t⟩

/-- Response classification as inlined in the `/analyze-image` handler:
`IMAGE_REQUEST:` is checked before `CSV_REQUEST:`. -/
def classifyImageFirst (t : Str) : Directive :=
  if imageMarker.isPrefixOf t then
    ⟨.generate_image, trimStr (t.drop imageMarker.length)⟩
  else if csvMarker.isPrefixOf t then
    ⟨.generate_csv, trimStr (t.drop csvMarker.length)⟩
  else ⟨.none, t⟩

/-! ## Real-time fact provider (`getSystemDateTime`, `getWeather`, `dispatchTool`)

`getSystemDateTime` formats the wall clock; its output is a parameter `dt`
of the chat handler.  `getWeather` returns a fixed dummy sentence. -/

/-- Default location of the weather tool. -/
def defaultLocation : Str := "Adimali, Kerala, India".toList

/-- `getWeather(location)`: the fixed dummy weather sentence. -/
def getWeatherText (loc : Str) : Str :=
  "The current weather in ".toList ++ loc ++ " is sunny with a temperature of 30°C.".toList

/-- JavaScript `hay.includes(pat)`. -/
def includesSub (pat hay : Str) : Bool := (splitFirst pat hay).isSome

/-- Line-terminator characters, which `.` in a JavaScript regex does not match. -/
def isLineTerm (c : Char) : Bool :=
  c == '\n' || c == '\r' || c == Char.ofNat 0x2028 || c == Char.ofNat 0x2029

/-- The location captured by `userQuestion.match(/weather in (.+)/)`, trimmed,
with the default location when the pattern finds nothing.  (The capture runs
to the end of the line after the first `weather in `; an empty capture is no
match.) -/
def weatherLocation (lq : Str) : Str :=
  match splitFirst "weather in ".toList lq with
  | some p =>
      let captured := p.2.takeWhile (fun c => !isLineTerm c)
      if captured.isEmpty then defaultLocation else trimStr captured
  | none => defaultLocation

/-- The keyword `today's date` (apostrophe kept out of the literal). -/
def kwTodaysDate : Str := "today".toList ++ apos :: "s date".toList

/-- The date/time keyword set of `dispatchTool`. -/
def dateTimeKeywords : List Str :=
  [kwTodaysDate, "current date".toList, "what date is it".toList,
   "current time".toList, "what time is it".toList, "date and time".toList]

/-- `dispatchTool(userQuestion)`: lowercases the question, then matches the
closed keyword sets; returns the tool name and its deterministic output
(`dt` is the `getSystemDateTime()` text). -/
def dispatchTool (dt : Str) (q : Str) : Option (Str × Str) :=
  let lq := toLowerStr q
  if dateTimeKeywords.any (fun k => includesSub k lq) then
    some ("get_date_time".toList, dt)
  else if includesSub "weather".toList lq || includesSub "temperature".toList lq then
    some ("get_weather".toList, getWeatherText (weatherLocation lq))
  else none

/-! ## Fixed texts of the handlers

The four task-specific system messages are long fixed instruction texts; each
is embedded as a distinct constant whose full multi-line wording is elided —
no stated property depends on the wording, only on role, position and count
of the pushed messages. -/

/-- Task system message of `/analyze-csv` (full fixed wording elided). -/
def csvSystemContent : Str :=
  "You are an expert CSV data analyst and transformer. [fixed CSV-analyst instructions: answer, or reply with a CSV_REQUEST: or IMAGE_REQUEST: directive]".toList

/-- Task system message of `/analyze-pdf` (full fixed wording elided). -/
def pdfSystemContent : Str :=
  "You are an expert document analyst. [fixed document-analyst instructions: answer, or reply with a CSV_REQUEST: or IMAGE_REQUEST: directive]".toList

/-- Task system message of `/analyze-image` (full fixed wording elided). -/
def imageSystemContent : Str :=
  "You are a helpful assistant capable of analyzing images. [fixed image-analyst instructions: answer, or reply with an IMAGE_REQUEST: or CSV_REQUEST: directive]".toList

/-- Directive instructions appended to the `/chat` priming message. -/
def chatSystemDirectives : Str :=
  (".\nIf, based on the conversational context, you determine a CSV should be generated, respond with: \"CSV_REQUEST: [Your detailed prompt for CSV generation here]\".\nIf you determine an image should be generated, respond with: \"IMAGE_REQUEST: [Your detailed prompt for image generation here]\".\nOtherwise, keep your responses concise and relevant to the conversation.").toList

/-- Priming system message of `/chat`, interpolating the current date/time
text `dt` (the output of `getSystemDateTime()`). -/
def chatSystemContent (dt : Str) : Str :=
  "You are a helpful assistant. I have access to real-time information such as the current date, time, and weather. The current date and time in Adimali, Kerala, India is: ".toList
    ++ dt ++ chatSystemDirectives

/-- Placeholder for the transport `error.message` text carried in `error`
fields of failure responses; its value is immaterial to every stated
property. -/
def inferenceErrText : Str := "[transport error message]".toList

/-- The `/analyze-csv` parse-failure error text. -/
def csvParseErrText : Str :=
  "❌ Failed to parse CSV content. Please ensure it".toList ++ apos :: "s valid CSV format.".toList

/-- The `/analyze-pdf` parse-failure error text (`parseError.message` elided). -/
def pdfParseErrText : Str := "❌ Failed to parse PDF content: [library error message]".toList

/-- Default prompt of `/analyze-csv`. -/
def csvDefaultPrompt : Str := "Analyze the following CSV data.".toList

/-- Default prompt of `/analyze-pdf`. -/
def pdfDefaultPrompt : Str := "Summarize the content of the PDF.".toList

/-- Default prompt of `/analyze-image`. -/
def imageDefaultPrompt : Str := "Describe this image.".toList

/-- Models `req.body.prompt || "default"` (the default also replaces an
empty string, which is falsy). -/
def promptOrDefault (p : Option Str) (d : Str) : Str :=
  match p with
  | some s => if s.isEmpty then d else s
  | none => d

/-- The `/analyze-csv` user message body:
`prompt + "\n\nCSV Data (JSON format):\n" + fenced JSON of the records`. -/
def csvUserContent (pr : Str) (recs : List Record) : Str :=
  pr ++ "\n\nCSV Data (JSON format):\n```json\n".toList
     ++ jsonStringifyRecords recs ++ "\n```\n".toList

/-- The `/analyze-pdf` user message body:
`prompt + "\n\nDocument Text:\n" + fenced extracted text`. -/
def pdfUserContent (pr txt : Str) : Str :=
  pr ++ "\n\nDocument Text:\n```\n".toList ++ txt ++ "\n```\n".toList

/-- The guard of the rollback in the `/analyze-csv` and `/analyze-pdf` error
branches: `history.length > 0 && history[history.length - 1].role === 'user'`. -/
def popUserGuard (h : List Message) : Bool :=
  match h.getLast? with
  | some m => m.role == .user
  | none => false

/-- The `action` response field: present and `generate_file` exactly when a
directive was classified. -/
def directiveAction (d : Directive) : Option Str :=
  if d.kind = .none then none else some "generate_file".toList

/-- The `fileType` response field (`null` when no directive). -/
def directiveFileType (d : Directive) : Option Str :=
  match d.kind with
  | .generate_csv => some "csv".toList
  | .generate_image => some "image".toList
  | .none => none

/-- The `generationPrompt` response field (`null` when no directive). -/
def directiveGenPrompt (d : Directive) : Option Str :=
  if d.kind = .none then none else some d.instructionText

/-! ## Request handlers

Each handler is a pure function of the request payload, the store, the fresh
uuid, and the external collaborators: the inference endpoint (`inf`, either
history-based for `/api/chat` callers or prompt-based for `/api/generate`
callers; `none` is a failed call), `JSON.parse` restricted to the
`Array.isArray` check (`jsonParse`), and the `pdf-parse` text extraction
outcome (`pdfText`).  Each returns its HTTP response envelope and the
resulting store; `calledInference` records whether the outbound inference
call was made. -/

/-- Response envelope of the analyze-* endpoints. -/
structure AnalyzeResult where
  status : Nat
  message : Option Str
  response : Option Str
  action : Option Str
  fileType : Option Str
  generationPrompt : Option Str
  csvContent : Option Str
  errorField : Option Str
  sessionId : Option Str
  calledInference : Bool
deriving DecidableEq, Repr

/-- Response envelope of `/chat`. -/
structure ChatResult where
  status : Nat
  message : Str
  answer : Option Str
  action : Option Str
  fileType : Option Str
  generationPrompt : Option Str
  errorField : Option Str
  sessionId : Option Str
  calledInference : Bool
deriving DecidableEq, Repr

/-- Response envelope of `/generate-csv` and `/generate-image`. -/
structure GenResult where
  status : Nat
  message : Str
  csvContent : Option Str
  fileName : Option Str
  response : Option Str
  errorField : Option Str
deriving DecidableEq, Repr

/-- Response envelope of `/clear-chat-history`. -/
structure ClearResult where
  status : Nat
  message : Option Str
  errorField : Option Str
deriving DecidableEq, Repr

/-- `app.post('/analyze-csv')`.  Session is resolved and its analyzed fields
cleared, the task system message is pushed, and only then is the `csv` field
validated and parsed; on success the user message is pushed and the model
called; on inference failure the last history entry is popped when it is the
just-pushed user message.  (Clearing the analyzed fields of a freshly
created session is the identity, so the clear is applied uniformly where the
source clears only in the existing-session branch.) -/
def analyzeCsvHandler (store : Store) (csv prompt sid : Option Str) (fresh : Str)
    (inf : List Message → Option Str) : AnalyzeResult × Store :=
  let pr := promptOrDefault prompt csvDefaultPrompt
  let r := resolveSession store sid fresh
  let sid1 := r.1
  let sess1 : Session := { r.2.1 with analyzedData := none, analyzedImage := none }
  let sess2 : Session := { sess1 with history := sess1.history ++ [mkMsg .system csvSystemContent] }
  let st1 := setSession r.2.2 sid1 sess2
  if falsyOpt csv then
    (⟨400, none, none, none, none, none, none,
      some "❌ No CSV content provided.".toList, none, false⟩, st1)
  else
    match csvToJson (csv.getD []) with
    | none =>
        (⟨400, none, none, none, none, none, none, some csvParseErrText, none, false⟩, st1)
    | some recs =>
        let sess3 : Session := { sess2 with analyzedData := some (.records recs) }
        let sess4 : Session :=
          { sess3 with history := sess3.history ++ [mkMsg .user (csvUserContent pr recs)] }
        let st2 := setSession st1 sid1 sess4
        match inf sess4.history with
        | some resp =>
            let d := classifyCsvFirst resp
            let sess5 := { sess4 with history := sess4.history ++ [mkMsg .assistant resp] }
            (⟨200, some "✅ CSV analysis complete".toList, some resp, directiveAction d,
              directiveFileType d, directiveGenPrompt d, none, none, some sid1, true⟩,
             setSession st2 sid1 sess5)
        | none =>
            let sess5 :=
              { sess4 with history :=
                  if popUserGuard sess4.history then sess4.history.dropLast else sess4.history }
            (⟨500, some "❌ Failed to analyze CSV".toList, none, none, none, none, none,
              some inferenceErrText, some sid1, true⟩, setSession st2 sid1 sess5)

/-- `app.post('/analyze-pdf')`.  Session resolved and analyzed fields
cleared, then the `pdf` field is validated and the text extracted
(`pdfText`, the `pdf-parse` outcome); on success the extracted text is
stored, the task system message and user message are pushed and the model
called; on inference failure the just-pushed user message is popped. -/
def analyzePdfHandler (store : Store) (pdf prompt sid : Option Str) (fresh : Str)
    (pdfText : Option Str) (inf : List Message → Option Str) : AnalyzeResult × Store :=
  let pr := promptOrDefault prompt pdfDefaultPrompt
  let r := resolveSession store sid fresh
  let sid1 := r.1
  let sess1 : Session := { r.2.1 with analyzedData := none, analyzedImage := none }
  let st1 := setSession r.2.2 sid1 sess1
  if falsyOpt pdf then
    (⟨400, none, none, none, none, none, none,
      some "❌ No PDF data (base64) provided.".toList, none, false⟩, st1)
  else
    match pdfText with
    | none =>
        (⟨400, none, none, none, none, none, none, some pdfParseErrText, none, false⟩, st1)
    | some txt =>
        let sess2 : Session := { sess1 with analyzedData := some (.text txt) }
        let sess3 : Session :=
          { sess2 with history := sess2.history ++ [mkMsg .system pdfSystemContent] }
        let sess4 : Session :=
          { sess3 with history := sess3.history ++ [mkMsg .user (pdfUserContent pr txt)] }
        let st2 := setSession st1 sid1 sess4
        match inf sess4.history with
        | some resp =>
            let d := classifyCsvFirst resp
            let sess5 := { sess4 with history := sess4.history ++ [mkMsg .assistant resp] }
            (⟨200, some "✅ PDF analysis complete".toList, some resp, directiveAction d,
              directiveFileType d, directiveGenPrompt d, none, none, some sid1, true⟩,
             setSession st2 sid1 sess5)
        | none =>
            let sess5 :=
              { sess4 with history :=
                  if popUserGuard sess4.history then sess4.history.dropLast else sess4.history }
            (⟨500, some "❌ Failed to analyze PDF".toList, none, none, none, none, none,
              some inferenceErrText, some sid1, true⟩, setSession st2 sid1 sess5)

/-- `app.post('/analyze-image')`.  Session resolved and analyzed fields
cleared; a truthy image is stored as `analyzedImage` and the task system
message is pushed before the image field is validated; on success the user
message (with the image attached) is pushed and the model called.
Classification checks `IMAGE_REQUEST:` first; a `CSV_REQUEST:` response
with a non-empty embedded fenced JSON array is additionally converted to
CSV directly, the fenced block removed from the response text (with a fixed
fallback sentence when nothing remains).  On inference failure the error
branch only logs: the just-pushed user message is NOT removed.  (The
source's catch around the JSON-to-CSV conversion is unreachable in this
embedding, whose converter is total.) -/
def analyzeImageHandler (store : Store) (image prompt sid : Option Str) (fresh : Str)
    (jsonParse : Str → Option (List Record)) (inf : List Message → Option Str) :
    AnalyzeResult × Store :=
  let pr := promptOrDefault prompt imageDefaultPrompt
  let r := resolveSession store sid fresh
  let sid1 := r.1
  let sess1 : Session := { r.2.1 with analyzedData := none, analyzedImage := none }
  let sess2 : Session :=
    if falsyOpt image then sess1 else { sess1 with analyzedImage := some (image.getD []) }
  let sess3 : Session :=
    { sess2 with history := sess2.history ++ [mkMsg .system imageSystemContent] }
  let st1 := setSession r.2.2 sid1 sess3
  if falsyOpt image then
    (⟨400, none, none, none, none, none, none,
      some "❌ No image data (base64) provided.".toList, none, false⟩, st1)
  else
    let img := image.getD []
    let sess4 : Session := { sess3 with history := sess3.history ++ [⟨.user, pr, [img]⟩] }
    let st2 := setSession st1 sid1 sess4
    match inf sess4.history with
    | none =>
        (⟨500, some "❌ Failed to analyze image".toList, none, none, none, none, none,
          some inferenceErrText, some sid1, true⟩, st2)
    | some resp =>
        let d := classifyImageFirst resp
        match d.kind with
        | .generate_image =>
            let sess5 := { sess4 with history := sess4.history ++ [mkMsg .assistant resp] }
            (⟨200, some "✅ Image analysis complete".toList, some resp,
              some "generate_file".toList, some "image".toList, some d.instructionText,
              none, none, some sid1, true⟩, setSession st2 sid1 sess5)
        | .generate_csv =>
            let pair : Str × Option Str :=
              match findJsonBlock resp with
              | some content =>
                  if content.isEmpty then (resp, none)
                  else
                    match jsonParse (trimStr content) with
                    | some arr =>
                        let csvOut := jsonToCsv arr
                        let r1 :=
                          trimStr (replaceFirst (jsonFenceOpen ++ content ++ jsonFenceClose) [] resp)
                        let r2 :=
                          if r1.isEmpty && !csvOut.isEmpty then
                            "Detected objects/attributes as CSV. Please download.".toList
                          else r1
                        (r2, some csvOut)
                    | none => (resp, none)
              | none => (resp, none)
            let sess5 := { sess4 with history := sess4.history ++ [mkMsg .assistant pair.1] }
            (⟨200, some "✅ Image analysis complete".toList, some pair.1,
              some "generate_file".toList, some "csv".toList, some d.instructionText,
              pair.2, none, some sid1, true⟩, setSession st2 sid1 sess5)
        | .none =>
            let sess5 := { sess4 with history := sess4.history ++ [mkMsg .assistant resp] }
            (⟨200, some "✅ Image analysis complete".toList, some resp,
              none, none, none, none, none, some sid1, true⟩, setSession st2 sid1 sess5)

/-- The `/chat` direct-command markers. -/
def genCsvCmd : Str := "generate csv:".toList

/-- The `/chat` direct image-command marker. -/
def genImageCmd : Str := "generate image:".toList

/-- The `/chat` alternative image-command marker. -/
def showImageCmd : Str := "show me an image of:".toList

/-- The `/chat` fresh session: priming system message pushed at creation. -/
def chatPrimedSession (dt : Str) : Session :=
  ⟨[mkMsg .system (chatSystemContent dt)], none, none⟩

/-- Session resolution of `/chat`: a missing/unknown/empty id allocates a
fresh id whose session is immediately primed with the chat system message;
a known id returns the stored session unchanged. -/
def resolveChatSession (store : Store) (sid : Option Str) (fresh dt : Str) :
    Str × Session × Store :=
  match sid with
  | some id =>
      if id.isEmpty then
        (fresh, chatPrimedSession dt, setSession store fresh (chatPrimedSession dt))
      else
        match findSession store id with
        | some s => (id, s, store)
        | none => (fresh, chatPrimedSession dt, setSession store fresh (chatPrimedSession dt))
  | none => (fresh, chatPrimedSession dt, setSession store fresh (chatPrimedSession dt))

/-- The tool-output system message of `/chat`. -/
def toolOutputMsg (td : Str × Str) : Message :=
  mkMsg .system ("Tool Output: ".toList ++ td.2)

/-- `app.post('/chat')`.  A missing `question` is `none` overall: the source
immediately calls `userQuestion.toLowerCase()`, which throws on `undefined`
and no response is sent.  Direct commands (`generate csv:` /
`generate image:` / `show me an image of:`, case-insensitive prefixes)
short-circuit before session resolution, echoing the request `sessionId`
verbatim.  Otherwise the session is resolved (priming a fresh one), a tool
output may be injected, the user message is pushed and the model called; on
failure the user message (and the tool message, if any) is popped. -/
def chatHandler (store : Store) (question sid : Option Str) (fresh dt : Str)
    (inf : List Message → Option Str) : Option (ChatResult × Store) :=
  match question with
  | none => none
  | some q =>
      let lq := toLowerStr q
      if genCsvCmd.isPrefixOf lq then
        some (⟨200, "✅ Command received to generate csv.".toList, none,
               some "generate_file".toList, some "csv".toList,
               some (trimStr (q.drop genCsvCmd.length)), none, sid, false⟩, store)
      else if genImageCmd.isPrefixOf lq || showImageCmd.isPrefixOf lq then
        let gp :=
          if genImageCmd.isPrefixOf lq then trimStr (q.drop genImageCmd.length)
          else trimStr (q.drop showImageCmd.length)
        some (⟨200, "✅ Command received to generate image.".toList, none,
               some "generate_file".toList, some "image".toList, some gp, none, sid, false⟩,
              store)
      else
        let r := resolveChatSession store sid fresh dt
        let sid1 := r.1
        let sess := r.2.1
        let st1 := r.2.2
        let tool := dispatchTool dt q
        let h1 := sess.history ++ (match tool with | some td => [toolOutputMsg td] | none => [])
        let h2 := h1 ++ [mkMsg .user q]
        match inf h2 with
        | some resp =>
            let d := classifyCsvFirst resp
            let sessF := { sess with history := h2 ++ [mkMsg .assistant resp] }
            some (⟨200, "✅ Chat response received".toList, some resp, directiveAction d,
                   directiveFileType d, directiveGenPrompt d, none, some sid1, true⟩,
                  setSession st1 sid1 sessF)
        | none =>
            let hE := if tool.isSome then h2.dropLast.dropLast else h2.dropLast
            let sessF := { sess with history := hE }
            some (⟨500, "❌ Failed to get chat response".toList, none, none, none, none,
                   some inferenceErrText, some sid1, true⟩, setSession st1 sid1 sessF)

/-- Models `!prompt || prompt.trim().length === 0`. -/
def promptFalsy : Option Str → Bool
  | none => true
  | some p => (trimStr p).isEmpty

/-- The final CSV text of the `/generate-csv` pipeline: the first non-empty
fenced JSON block, when it parses to an array, is converted with
`jsonToCsv`; otherwise the raw model output is treated as already-tabular. -/
def finalCsvOf (jsonParse : Str → Option (List Record)) (raw : Str) : Str :=
  match findJsonBlock raw with
  | some content =>
      if content.isEmpty then raw
      else
        match jsonParse (trimStr content) with
        | some arr => jsonToCsv arr
        | none => raw
  | none => raw

/-- Suffix appended to the `/generate-csv` prompt instructing fenced JSON
output (fixed wording; the inline example with braces is elided). -/
def jsonOutputInstruction : Str :=
  "\n\n**IMPORTANT**: Output the result as a JSON array of objects, enclosed in triple backticks and a json tag. [inline example elided] No other text around the JSON.".toList

/-- The full prompt of `/generate-csv`, interpolating the session's analyzed
data when present and truthy (an empty extracted text is falsy). -/
def genCsvFullPrompt (store : Store) (pr : Str) (sid : Option Str) : Str :=
  let dataPart : Option AnalyzedData :=
    match sid with
    | some id =>
        if id.isEmpty then none
        else
          match findSession store id with
          | some s =>
              match s.analyzedData with
              | some (.text t) => if t.isEmpty then none else some (.text t)
              | x => x
          | none => none
    | none => none
  match dataPart with
  | some (.records rs) =>
      "Based on the following data, please generate a CSV: ".toList ++ pr
        ++ "\n\nData (JSON format):\n```json\n".toList
        ++ jsonStringifyRecords rs ++ "\n```\n".toList
  | some (.text t) =>
      "Based on the following document text, please generate a CSV: ".toList ++ pr
        ++ "\n\nDocument Text:\n```\n".toList ++ t ++ "\n```\n".toList
  | none => pr

/-- `app.post('/generate-csv')`.  Validates the prompt, builds the
data-aware prompt, calls single-shot inference, extracts/converts the final
CSV text and reports an empty final text as a 500 with the explicit
empty-result payload.  The store is never written. -/
def generateCsvHandler (store : Store) (prompt sid : Option Str)
    (jsonParse : Str → Option (List Record)) (inf : Str → Option Str) :
    GenResult × Store :=
  if promptFalsy prompt then
    (⟨400, "❌ Prompt for CSV generation cannot be empty.".toList, none, none, none, none⟩,
     store)
  else
    let pr := prompt.getD []
    match inf (genCsvFullPrompt store pr sid ++ jsonOutputInstruction) with
    | none =>
        (⟨500, "❌ Failed to generate CSV".toList, none, none, none,
          some inferenceErrText⟩, store)
    | some raw =>
        let finalCsv := finalCsvOf jsonParse raw
        if finalCsv.isEmpty || (trimStr finalCsv).isEmpty then
          (⟨500, "❌ Generated empty CSV. Please refine your prompt or data.".toList,
            some [], some "empty_generated.csv".toList, none, none⟩, store)
        else
          (⟨200, "✅ CSV content generated successfully".toList, some finalCsv,
            some "generated_data.csv".toList, none, none⟩, store)

/-- `app.post('/generate-image')`.  Validates the prompt, re-attaches the
session's analyzed image (when truthy) to a multimodal single-shot call and
returns the textual result.  The store is never written. -/
def generateImageHandler (store : Store) (prompt sid : Option Str)
    (inf : Str → List Str → Option Str) : GenResult × Store :=
  if promptFalsy prompt then
    (⟨400, "❌ Prompt for Image analysis/processing cannot be empty.".toList,
      none, none, none, none⟩, store)
  else
    let pr := prompt.getD []
    let attached : Option Str :=
      match sid with
      | some id =>
          if id.isEmpty then none
          else
            match findSession store id with
            | some s =>
                match s.analyzedImage with
                | some img => if img.isEmpty then none else some img
                | none => none
            | none => none
      | none => none
    let outcome :=
      match attached with
      | some img =>
          inf ("Given the attached image, please provide a textual output: ".toList ++ pr) [img]
      | none => inf pr []
    match outcome with
    | none =>
        (⟨500, "❌ Failed to process image with multimodal model".toList, none, none, none,
          some inferenceErrText⟩, store)
    | some resp =>
        (⟨200, "✅ Image analysis/description generated successfully".toList, none,
          some "image_analysis.txt".toList, some resp, none⟩, store)

/-- The `/clear-chat-history` not-found error text. -/
def clearNotFoundText : Str := "❌ Session not found or no sessionId provided.".toList

/-- `app.post('/clear-chat-history')`: a truthy, known session id deletes the
store entry and returns 200; otherwise 404 and the store is untouched. -/
def clearChatHandler (store : Store) (sid : Option Str) : ClearResult × Store :=
  match sid with
  | some id =>
      if id.isEmpty then (⟨404, none, some clearNotFoundText⟩, store)
      else
        match findSession store id with
        | some _ =>
            (⟨200, some ("✅ Conversation history cleared for session: ".toList ++ id), none⟩,
             eraseSession store id)
        | none => (⟨404, none, some clearNotFoundText⟩, store)
  | none => (⟨404, none, some clearNotFoundText⟩, store)

/-! ## Lemmas about the session store -/

theorem findSession_setSession_self (st : Store) (id : Str) (s : Session) :
    findSession (setSession st id s) id = some s := by
  induction st with
  | nil => simp [setSession, findSession]
  | cons kv t ih =>
      by_cases h : kv.1 == id
      · simp [setSession, findSession, h]
      · simp [setSession, findSession, h, ih]

theorem findSession_setSession_ne (st : Store) (id id' : Str) (s : Session)
    (h : id' ≠ id) : findSession (setSession st id s) id' = findSession st id' := by
  induction st with
  | nil => simp [setSession, findSession, Ne.symm h]
  | cons kv t ih =>
      by_cases hk : kv.1 == id
      · have hk' : kv.1 = id := by simpa using hk
        simp [setSession, findSession, hk, hk', Ne.symm h]
      · simp [setSession, findSession, hk, ih]

theorem setSession_setSession (st : Store) (id : Str) (a b : Session) :
    setSession (setSession st id a) id b = setSession st id b := by
  induction st with
  | nil => simp [setSession]
  | cons kv t ih =>
      by_cases h : kv.1 == id
      · simp [setSession, h]
      · simp [setSession, h, ih]

theorem findSession_eraseSession_self (st : Store) (id : Str) :
    findSession (eraseSession st id) id = none := by
  induction st with
  | nil => simp [eraseSession, findSession]
  | cons kv t ih =>
      by_cases h : kv.1 == id
      · simp [eraseSession, h, ih]
      · simp [eraseSession, findSession, h, ih]


/-! ## Step lemmas for the delimited-text parser

The parser definitions use nested matches whose auto-generated equations do
not rewrite well; these unconditional step equations are what the round-trip
proof rewrites with. -/

theorem parseUnquoted_stop (c : Char) (xs : Str) (h : c = ',' ∨ c = '\n') :
    parseUnquoted (c :: xs) = ([], c :: xs) := by
  rw [parseUnquoted.eq_def]
  simp [h]

theorem parseUnquoted_go (c : Char) (xs : Str) (h : ¬(c = ',' ∨ c = '\n')) :
    parseUnquoted (c :: xs) = (c :: (parseUnquoted xs).1, (parseUnquoted xs).2) := by
  rw [parseUnquoted.eq_def]
  simp [h]

theorem parseQuoted_close (rest : Str) (h : rest.head? ≠ some '"') :
    parseQuoted ('"' :: rest) = some ([], rest) := by
  rw [parseQuoted.eq_def]
  cases rest with
  | nil => simp
  | cons c2 r2 =>
      have hc2 : ¬c2 = '"' := by
        intro hc
        exact h (by simp [hc])
      simp [hc2]

theorem parseQuoted_escaped (xs : Str) :
    parseQuoted ('"' :: '"' :: xs) = (parseQuoted xs).map (fun p => ('"' :: p.1, p.2)) := by
  rw [parseQuoted.eq_def]
  simp

theorem parseQuoted_go (c : Char) (xs : Str) (h : ¬c = '"') :
    parseQuoted (c :: xs) = (parseQuoted xs).map (fun p => (c :: p.1, p.2)) := by
  rw [parseQuoted.eq_def]
  simp [h]

theorem parseField_quote (xs : Str) : parseField ('"' :: xs) = parseQuoted xs := by
  rw [parseField.eq_def]
  simp

theorem parseField_plain (c : Char) (xs : Str) (h : ¬c = '"') :
    parseField (c :: xs) = some (parseUnquoted (c :: xs)) := by
  rw [parseField.eq_def]
  simp [h]

theorem parseRecordF_step_last (n : Nat) (s f : Str)
    (h : parseField s = some (f, [])) :
    parseRecordF (n + 1) s = some ([f], []) := by
  rw [parseRecordF.eq_def]
  simp [h]

theorem parseRecordF_step_comma (n : Nat) (s f r2 : Str)
    (h : parseField s = some (f, ',' :: r2)) :
    parseRecordF (n + 1) s = (parseRecordF n r2).map (fun p => (f :: p.1, p.2)) := by
  rw [parseRecordF.eq_def]
  simp [h]

theorem parseRecordF_step_newline (n : Nat) (s f r2 : Str)
    (h : parseField s = some (f, '\n' :: r2)) :
    parseRecordF (n + 1) s = some ([f], r2) := by
  rw [parseRecordF.eq_def]
  simp [h]

theorem parseRowsF_nil (n : Nat) : parseRowsF (n + 1) [] = some [] := by
  rw [parseRowsF.eq_def]

theorem parseRowsF_skip (n : Nat) (xs : Str) :
    parseRowsF (n + 1) ('\n' :: xs) = parseRowsF n xs := by
  rw [parseRowsF.eq_def]
  simp

theorem parseRowsF_record (n : Nat) (c : Char) (xs : Str) (fs : List Str) (r2 : Str)
    (hc : ¬c = '\n')
    (h : parseRecordF ((c :: xs).length + 1) (c :: xs) = some (fs, r2)) :
    parseRowsF (n + 1) (c :: xs) = (parseRowsF n r2).map (fs :: ·) := by
  rw [parseRowsF.eq_def]
  simp only [List.length_cons] at h
  simp [hc, h]

/-! ## Lemmas towards the format-converter round trip -/

theorem not_needsQuoting_mem {f : Str} (hq : needsQuoting f = false) :
    ∀ c ∈ f, c ≠ ',' ∧ c ≠ '"' ∧ c ≠ '\n' ∧ c ≠ '\r' := by
  intro c hc
  have h' : ¬(c = ',' ∨ c = '"' ∨ c = '\n' ∨ c = '\r') := by
    intro hor
    have : needsQuoting f = true := by
      refine List.any_eq_true.mpr ⟨c, hc, ?_⟩
      rcases hor with h | h | h | h <;> simp [h]
    simp [this] at hq
  push_neg at h'
  exact ⟨h'.1, h'.2.1, h'.2.2.1, h'.2.2.2⟩

theorem fieldStop_head_ne_quote {rest : Str} (h : FieldStop rest) :
    rest.head? ≠ some '"' := by
  rcases h with h | ⟨r, h⟩ | ⟨r, h⟩ <;> subst h <;> simp

theorem parseUnquoted_append (f rest : Str)
    (hf : ∀ c ∈ f, ¬(c = ',' ∨ c = '\n')) (hrest : FieldStop rest) :
    parseUnquoted (f ++ rest) = (f, rest) := by
  induction f with
  | nil =>
      rcases hrest with h | ⟨r, h⟩ | ⟨r, h⟩ <;> subst h
      · rfl
      · exact parseUnquoted_stop _ _ (Or.inl rfl)
      · exact parseUnquoted_stop _ _ (Or.inr rfl)
  | cons c f' ih =>
      have hc := hf c (by simp)
      have ih' := ih (fun d hd => hf d (by simp [hd]))
      rw [List.cons_append, parseUnquoted_go c _ hc, ih']

theorem parseQuoted_esc (f rest : Str) (hrest : rest.head? ≠ some '"') :
    parseQuoted (escQuotes f ++ '"' :: rest) = some (f, rest) := by
  induction f with
  | nil =>
      rw [show escQuotes [] = [] from rfl, List.nil_append]
      exact parseQuoted_close rest hrest
  | cons c f' ih =>
      by_cases hc : c = '"'
      · subst hc
        rw [show escQuotes ('"' :: f') = '"' :: '"' :: escQuotes f' by simp [escQuotes]]
        rw [List.cons_append, List.cons_append, parseQuoted_escaped, ih]
        rfl
      · rw [show escQuotes (c :: f') = c :: escQuotes f' by simp [escQuotes, hc]]
        rw [List.cons_append, parseQuoted_go c _ hc, ih]
        rfl

theorem parseField_esc (f rest : Str) (hrest : FieldStop rest) :
    parseField (escapeField f ++ rest) = some (f, rest) := by
  have hhead := fieldStop_head_ne_quote hrest
  by_cases hq : needsQuoting f
  · rw [show escapeField f = '"' :: (escQuotes f ++ ['"']) by simp [escapeField, hq]]
    rw [show ('"' :: (escQuotes f ++ ['"'])) ++ rest = '"' :: (escQuotes f ++ '"' :: rest) by simp]
    rw [parseField_quote, parseQuoted_esc f rest hhead]
  · have hq' : needsQuoting f = false := by simpa using hq
    rw [show escapeField f = f by simp [escapeField, hq']]
    have hmem := not_needsQuoting_mem hq'
    cases f with
    | nil =>
        rw [List.nil_append]
        rcases hrest with h | ⟨r, h⟩ | ⟨r, h⟩ <;> subst h
        · rfl
        · rw [parseField_plain _ _ (by decide), parseUnquoted_stop _ _ (Or.inl rfl)]
        · rw [parseField_plain _ _ (by decide), parseUnquoted_stop _ _ (Or.inr rfl)]
    | cons c f' =>
        have hcq : c ≠ '"' := (hmem c (by simp)).2.1
        have hun : parseUnquoted ((c :: f') ++ rest) = (c :: f', rest) :=
          parseUnquoted_append (c :: f') rest
            (fun d hd => by
              have := hmem d hd
              push_neg
              exact ⟨this.1, this.2.2.1⟩)
            hrest
        rw [List.cons_append] at hun ⊢
        rw [parseField_plain c _ hcq, hun]

theorem parseRecordF_render (fields : List Str) (rest : Str) (fuel : Nat)
    (hne : fields ≠ []) (hfuel : fields.length ≤ fuel) :
    parseRecordF fuel (joinComma (fields.map escapeField) ++ '\n' :: rest) =
      some (fields, rest) := by
  induction fields generalizing rest fuel with
  | nil => exact absurd rfl hne
  | cons f fs ih =>
      cases fuel with
      | zero => simp at hfuel
      | succ m =>
          cases fs with
          | nil =>
              have hp := parseField_esc f ('\n' :: rest) (Or.inr (Or.inr ⟨rest, rfl⟩))
              rw [show joinComma ([f].map escapeField) = escapeField f from rfl]
              rw [parseRecordF_step_newline m _ f rest hp]
          | cons f2 t =>
              have hjc : joinComma ((f :: f2 :: t).map escapeField) =
                  escapeField f ++ ',' :: joinComma ((f2 :: t).map escapeField) := by
                rfl
              have hp := parseField_esc f
                (',' :: (joinComma ((f2 :: t).map escapeField) ++ '\n' :: rest))
                (Or.inr (Or.inl ⟨_, rfl⟩))
              have ih' := ih rest m (by simp)
                (by simpa using Nat.le_of_succ_le_succ hfuel)
              rw [hjc, List.append_assoc, List.cons_append]
              rw [parseRecordF_step_comma m _ f _ hp, ih']
              rfl

theorem escapeField_head_ne_newline (f : Str) (c : Char)
    (h : (escapeField f).head? = some c) : c ≠ '\n' := by
  by_cases hq : needsQuoting f
  · rw [show escapeField f = '"' :: (escQuotes f ++ ['"']) by simp [escapeField, hq]] at h
    simp at h
    subst h
    decide
  · have hq' : needsQuoting f = false := by simpa using hq
    rw [show escapeField f = f by simp [escapeField, hq']] at h
    cases f with
    | nil => simp at h
    | cons a t =>
        simp at h
        subst h
        exact (not_needsQuoting_mem hq' _ (by simp)).2.2.1

theorem renderLine_head_ne_newline (cells : List Str)
    (hne : joinComma (cells.map escapeField) ≠ []) (c : Char)
    (h : (joinComma (cells.map escapeField)).head? = some c) : c ≠ '\n' := by
  cases cells with
  | nil => simp [joinComma] at hne
  | cons f fs =>
      cases fs with
      | nil =>
          rw [show joinComma ([f].map escapeField) = escapeField f from rfl] at h
          exact escapeField_head_ne_newline f c h
      | cons f2 t =>
          have hjc : joinComma ((f :: f2 :: t).map escapeField) =
              escapeField f ++ ',' :: joinComma ((f2 :: t).map escapeField) := rfl
          rw [hjc, List.head?_append] at h
          cases hef : (escapeField f).head? with
          | none =>
              rw [hef] at h
              simp at h
              subst h
              decide
          | some a =>
              rw [hef] at h
              simp at h
              subst h
              exact escapeField_head_ne_newline f _ hef

theorem joinComma_length (xs : List Str) : xs.length ≤ (joinComma xs).length + 1 := by
  induction xs with
  | nil => simp [joinComma]
  | cons x t ih =>
      cases t with
      | nil => simp [joinComma]
      | cons y t' =>
          rw [show joinComma (x :: y :: t') = x ++ ',' :: joinComma (y :: t') from rfl]
          simp only [List.length_cons, List.length_append] at *
          omega

theorem rowsRender_length (rows : List (List Str)) :
    rows.length ≤ ((rows.map renderLine).flatten).length := by
  induction rows with
  | nil => simp
  | cons r t ih =>
      rw [show ((r :: t).map renderLine).flatten = renderLine r ++ (t.map renderLine).flatten
            by simp]
      rw [List.length_append, List.length_cons]
      have : 1 ≤ (renderLine r).length := by
        rw [renderLine, List.length_append]
        simp
      omega

theorem parseRowsF_render (rows : List (List Str)) (fuel : Nat)
    (h1 : ∀ r ∈ rows, joinComma (r.map escapeField) ≠ [])
    (h2 : ∀ r ∈ rows, r ≠ [])
    (hfuel : rows.length < fuel) :
    parseRowsF fuel ((rows.map renderLine).flatten) = some rows := by
  induction rows generalizing fuel with
  | nil =>
      cases fuel with
      | zero => simp at hfuel
      | succ m =>
          rw [show (([] : List (List Str)).map renderLine).flatten = [] from rfl]
          exact parseRowsF_nil m
  | cons r t ih =>
      cases fuel with
      | zero => simp at hfuel
      | succ m =>
          have hjc := h1 r (by simp)
          have hrne := h2 r (by simp)
          cases hjcs : joinComma (r.map escapeField) with
          | nil => exact absurd hjcs hjc
          | cons c jt =>
              have hcne : c ≠ '\n' := by
                refine renderLine_head_ne_newline r hjc c ?_
                rw [hjcs]
                rfl
              have hflat : ((r :: t).map renderLine).flatten =
                  c :: (jt ++ '\n' :: ((t.map renderLine).flatten)) := by
                rw [show ((r :: t).map renderLine).flatten =
                      renderLine r ++ (t.map renderLine).flatten by simp]
                rw [renderLine, hjcs]
                simp
              have hshape : c :: (jt ++ '\n' :: ((t.map renderLine).flatten)) =
                  joinComma (r.map escapeField) ++ '\n' :: ((t.map renderLine).flatten) := by
                rw [hjcs]
                simp
              have hrec : parseRecordF
                  ((c :: (jt ++ '\n' :: ((t.map renderLine).flatten))).length + 1)
                  (c :: (jt ++ '\n' :: ((t.map renderLine).flatten))) =
                  some (r, (t.map renderLine).flatten) := by
                rw [hshape]
                refine parseRecordF_render r ((t.map renderLine).flatten) _ hrne ?_
                have hlen1 := joinComma_length (r.map escapeField)
                rw [List.length_map] at hlen1
                rw [List.length_append, List.length_cons]
                omega
              have iht := ih m (fun x hx => h1 x (by simp [hx]))
                (fun x hx => h2 x (by simp [hx]))
                (by simpa using Nat.lt_of_succ_lt_succ hfuel)
              rw [hflat, parseRowsF_record m c _ r ((t.map renderLine).flatten) hcne hrec, iht]
              rfl

theorem zip_lookup_self (r : Record) (hnd : (keysOf r).Nodup) :
    (keysOf r).zip ((keysOf r).map (fun k => lookupField r k)) = r := by
  induction r with
  | nil => simp [keysOf]
  | cons kv r' ih =>
      obtain ⟨k, v⟩ := kv
      have hkeys : keysOf ((k, v) :: r') = k :: keysOf r' := by simp [keysOf]
      rw [hkeys] at hnd ⊢
      have hknot : k ∉ keysOf r' := (List.nodup_cons.mp hnd).1
      have hnd' : (keysOf r').Nodup := (List.nodup_cons.mp hnd).2
      have hself : lookupField ((k, v) :: r') k = v := by
        simp [lookupField, List.find?_cons]
      have hcongr : (keysOf r').map (fun k' => lookupField ((k, v) :: r') k') =
          (keysOf r').map (fun k' => lookupField r' k') := by
        refine List.map_congr_left ?_
        intro k' hk'
        have hne : ¬(k == k') = true := by
          intro hb
          exact hknot (by simpa using ((by simpa using hb : k = k') ▸ hk'))
        simp [lookupField, List.find?_cons, hne]
      simp only [List.map, hself, hcongr, List.zip_cons_cons]
      rw [ih hnd']

/-- C2 (amended).  Round trip of the format converters: for every non-empty
record sequence with a homogeneous, duplicate-free key list, in which no
row of the rendered table — header row included — is an empty line,
parsing the rendered table returns exactly the original records.  (Without
the empty-line proviso the property fails: a single-column table with an
empty cell renders that row as an empty line, which `skip_empty_lines`
drops on re-parse; see the counterexample.) -/
theorem C2_roundtrip_amended (r0 : Record) (rest : List Record)
    (hkeys : ∀ r ∈ r0 :: rest, keysOf r = keysOf r0)
    (hnd : (keysOf r0).Nodup)
    (hh : joinComma ((keysOf r0).map escapeField) ≠ [])
    (hr : ∀ r ∈ r0 :: rest,
      joinComma (((keysOf r0).map (fun k => lookupField r k)).map escapeField) ≠ []) :
    csvToJson (jsonToCsv (r0 :: rest)) = some (r0 :: rest) := by
  have hjson : jsonToCsv (r0 :: rest) =
      ((keysOf r0 :: (r0 :: rest).map (fun r => (keysOf r0).map (fun k => lookupField r k))).map
        renderLine).flatten := by
    rw [jsonToCsv.eq_def]
    simp [List.map_map, Function.comp_def]
  have hdrne : keysOf r0 ≠ [] := by
    intro h
    apply hh
    rw [h]
    rfl
  have h1 : ∀ row ∈ keysOf r0 ::
      (r0 :: rest).map (fun r => (keysOf r0).map (fun k => lookupField r k)),
      joinComma (row.map escapeField) ≠ [] := by
    intro row hrow
    rcases List.mem_cons.mp hrow with h | h
    · subst h
      exact hh
    · obtain ⟨r, hrmem, hreq⟩ := List.mem_map.mp h
      subst hreq
      exact hr r hrmem
  have h2 : ∀ row ∈ keysOf r0 ::
      (r0 :: rest).map (fun r => (keysOf r0).map (fun k => lookupField r k)), row ≠ [] := by
    intro row hrow
    rcases List.mem_cons.mp hrow with h | h
    · subst h
      exact hdrne
    · obtain ⟨r, hrmem, hreq⟩ := List.mem_map.mp h
      subst hreq
      intro hc
      exact hdrne (by simpa using hc)
  have hfuel : (keysOf r0 ::
      (r0 :: rest).map (fun r => (keysOf r0).map (fun k => lookupField r k))).length <
      (jsonToCsv (r0 :: rest)).length + 1 := by
    have hlen := rowsRender_length (keysOf r0 ::
      (r0 :: rest).map (fun r => (keysOf r0).map (fun k => lookupField r k)))
    rw [← hjson] at hlen
    omega
  have hrows := parseRowsF_render (keysOf r0 ::
      (r0 :: rest).map (fun r => (keysOf r0).map (fun k => lookupField r k)))
      ((jsonToCsv (r0 :: rest)).length + 1) h1 h2 hfuel
  rw [← hjson] at hrows
  have hall : (((r0 :: rest).map (fun r => (keysOf r0).map (fun k => lookupField r k))).all
      (fun row => row.length == (keysOf r0).length)) = true := by
    refine List.all_eq_true.mpr ?_
    intro row hrow
    obtain ⟨r, hrmem, hreq⟩ := List.mem_map.mp hrow
    subst hreq
    simp
  have hmap : ((r0 :: rest).map (fun r => (keysOf r0).map (fun k => lookupField r k))).map
      (fun row => (keysOf r0).zip row) = r0 :: rest := by
    rw [List.map_map]
    have hpt : ∀ r ∈ r0 :: rest,
        ((fun row => (keysOf r0).zip row) ∘ fun r => (keysOf r0).map (fun k => lookupField r k)) r
          = r := by
      intro r hrmem
      have hk := hkeys r hrmem
      have hnd' : (keysOf r).Nodup := by
        rw [hk]
        exact hnd
      simp only [Function.comp]
      rw [← hk]
      exact zip_lookup_self r hnd'
    rw [List.map_congr_left hpt]
    simp
  rw [csvToJson.eq_def, hrows]
  simp only [hall, if_true, hmap]

/-- C2 (counterexample).  The round trip fails as universally stated: the
single-record, single-column table with an empty cell renders as `h\n\n`,
whose empty second line is skipped on re-parse, returning `[]` instead of
the original record list. -/
theorem C2_roundtrip_counterexample :
    csvToJson (jsonToCsv [[("h".toList, ([] : Str))]]) = some [] ∧
    csvToJson (jsonToCsv [[("h".toList, ([] : Str))]]) ≠ some [[("h".toList, ([] : Str))]] := by
  constructor <;> decide

/-- C2 (witness): the amended round trip evaluated on a concrete two-column
table whose second cell needs quoting. -/
theorem C2_witness :
    csvToJson (jsonToCsv [[("a".toList, "1".toList), ("b".toList, "x,\"y".toList)]]) =
      some [[("a".toList, "1".toList), ("b".toList, "x,\"y".toList)]] :=
  C2_roundtrip_amended [("a".toList, "1".toList), ("b".toList, "x,\"y".toList)] []
    (by decide) (by decide) (by decide) (by decide)

/-- Two candidate markers of which the shorter is not a prefix of the longer
cannot both be prefixes of the same text. -/
theorem prefix_excl {a b t : Str} (hlen : a.length ≤ b.length)
    (hnab : a.isPrefixOf b = false)
    (h1 : a.isPrefixOf t = true) (h2 : b.isPrefixOf t = true) : False := by
  have p1 := List.isPrefixOf_iff_prefix.mp h1
  have p2 := List.isPrefixOf_iff_prefix.mp h2
  have h12 := List.prefix_of_prefix_length_le p1 p2 hlen
  rw [List.isPrefixOf_iff_prefix.mpr h12] at hnab
  cases hnab

/-- C1.  Response-classifier prefix semantics, for both marker orders (the
CSV-first order of `/chat`, `/analyze-csv` and `/analyze-pdf`, and the
image-first order of `/analyze-image`): the classifier yields kind
`generate_csv` (resp. `generate_image`) exactly when the text starts with
`CSV_REQUEST:` (resp. `IMAGE_REQUEST:`), in which case the instruction text
is the text after the marker, trimmed; otherwise — in particular when a
marker occurs only mid-string — the kind is `none` and the full text is the
user-facing answer. -/
theorem C1_response_classifier (t : Str) :
    ((classifyCsvFirst t).kind = .generate_csv ↔ csvMarker.isPrefixOf t = true)
  ∧ ((classifyImageFirst t).kind = .generate_csv ↔ csvMarker.isPrefixOf t = true)
  ∧ ((classifyCsvFirst t).kind = .generate_image ↔ imageMarker.isPrefixOf t = true)
  ∧ ((classifyImageFirst t).kind = .generate_image ↔ imageMarker.isPrefixOf t = true)
  ∧ (csvMarker.isPrefixOf t = true →
      (classifyCsvFirst t).instructionText = trimStr (t.drop csvMarker.length) ∧
      (classifyImageFirst t).instructionText = trimStr (t.drop csvMarker.length))
  ∧ (imageMarker.isPrefixOf t = true →
      (classifyCsvFirst t).instructionText = trimStr (t.drop imageMarker.length) ∧
      (classifyImageFirst t).instructionText = trimStr (t.drop imageMarker.length))
  ∧ ((classifyCsvFirst t).kind = .none →
      (classifyCsvFirst t).instructionText = t ∧ classifyImageFirst t = classifyCsvFirst t) := by
  by_cases hc : csvMarker.isPrefixOf t
  · have hi : imageMarker.isPrefixOf t = false := by
      by_contra hii
      exact prefix_excl (a := csvMarker) (b := imageMarker) (by decide) (by decide) hc
        (by simpa using hii)
    simp [classifyCsvFirst, classifyImageFirst, hc, hi]
  · have hc' : csvMarker.isPrefixOf t = false := eq_false_of_ne_true hc
    by_cases hi : imageMarker.isPrefixOf t
    · simp [classifyCsvFirst, classifyImageFirst, hc', hi]
    · have hi' : imageMarker.isPrefixOf t = false := eq_false_of_ne_true hi
      simp [classifyCsvFirst, classifyImageFirst, hc', hi']

/-- C1 (witness): the classifier evaluated on the spec's concrete examples. -/
theorem C1_witness :
    (classifyCsvFirst "CSV_REQUEST: make a table".toList).instructionText =
      "make a table".toList := by
  exact ((C1_response_classifier ("CSV_REQUEST: make a table".toList)).2.2.2.2.1
    (by decide)).1.trans (by decide)

/-- C6.  Session resolution: an absent, empty or unknown session id
allocates the fresh id with an empty session (history `[]`, analyzed fields
`null`) and raises no error; a known id returns the stored session
unchanged, with the store untouched.  The allocation is visible under the
fresh id and disturbs no other id. -/
theorem C6_session_resolution (store : Store) (fresh : Str) :
    (resolveSession store none fresh =
      (fresh, emptySession, setSession store fresh emptySession))
  ∧ (∀ id, id.isEmpty = true →
      resolveSession store (some id) fresh =
        (fresh, emptySession, setSession store fresh emptySession))
  ∧ (∀ id, id.isEmpty = false → findSession store id = none →
      resolveSession store (some id) fresh =
        (fresh, emptySession, setSession store fresh emptySession))
  ∧ (∀ id sess, id.isEmpty = false → findSession store id = some sess →
      resolveSession store (some id) fresh = (id, sess, store))
  ∧ findSession (setSession store fresh emptySession) fresh = some emptySession
  ∧ (∀ id, id ≠ fresh →
      findSession (setSession store fresh emptySession) id = findSession store id)
  ∧ emptySession.history = [] ∧ emptySession.analyzedData = none ∧
    emptySession.analyzedImage = none := by
  refine ⟨rfl, ?_, ?_, ?_, findSession_setSession_self _ _ _, ?_, rfl, rfl, rfl⟩
  · intro id h
    simp [resolveSession, h]
  · intro id h hf
    simp [resolveSession, h, hf]
  · intro id sess h hf
    simp [resolveSession, h, hf]
  · intro id h
    exact findSession_setSession_ne _ _ _ _ h

/-- C6 (witness): resolving a known id returns the stored session with the
store unchanged. -/
theorem C6_witness :
    resolveSession [("a".toList, emptySession)] (some "a".toList) "b".toList =
      ("a".toList, emptySession, [("a".toList, emptySession)]) :=
  (C6_session_resolution [("a".toList, emptySession)] "b".toList).2.2.2.1
    "a".toList emptySession (by decide) (by decide)

/-- C7.  The `/chat` direct-command short circuit: a question beginning
(case-insensitively) with `generate csv:` (resp. `generate image:`,
`show me an image of:`) returns `action = generate_file` with file type
`csv` (resp. `image`) and the trimmed remainder of the original question as
the generation prompt, without any outbound inference call and for any
inference behaviour. -/
theorem C7_direct_command (store : Store) (q : Str) (sid : Option Str) (fresh dt : Str)
    (inf : List Message → Option Str) :
    (genCsvCmd.isPrefixOf (toLowerStr q) = true →
       chatHandler store (some q) sid fresh dt inf =
         some (⟨200, "✅ Command received to generate csv.".toList, none,
                some "generate_file".toList, some "csv".toList,
                some (trimStr (q.drop genCsvCmd.length)), none, sid, false⟩, store))
  ∧ (genImageCmd.isPrefixOf (toLowerStr q) = true →
       chatHandler store (some q) sid fresh dt inf =
         some (⟨200, "✅ Command received to generate image.".toList, none,
                some "generate_file".toList, some "image".toList,
                some (trimStr (q.drop genImageCmd.length)), none, sid, false⟩, store))
  ∧ (showImageCmd.isPrefixOf (toLowerStr q) = true →
       chatHandler store (some q) sid fresh dt inf =
         some (⟨200, "✅ Command received to generate image.".toList, none,
                some "generate_file".toList, some "image".toList,
                some (trimStr (q.drop showImageCmd.length)), none, sid, false⟩, store)) := by
  refine ⟨?_, ?_, ?_⟩
  · intro h
    simp [chatHandler, h]
  · intro h
    have hc : genCsvCmd.isPrefixOf (toLowerStr q) = false := by
      by_contra hcc
      exact prefix_excl (by decide) (by decide) (eq_true_of_ne_false hcc) h
    simp [chatHandler, hc, h]
  · intro h
    have hc : genCsvCmd.isPrefixOf (toLowerStr q) = false := by
      by_contra hcc
      exact prefix_excl (by decide) (by decide) (eq_true_of_ne_false hcc) h
    have hg : genImageCmd.isPrefixOf (toLowerStr q) = false := by
      by_contra hgg
      exact prefix_excl (by decide) (by decide) (eq_true_of_ne_false hgg) h
    simp [chatHandler, hc, hg, h]

/-- C7 (witness): the spec's concrete direct command, on an empty store and
a failing inference stub that is never reached. -/
theorem C7_witness :
    chatHandler [] (some "Generate CSV: 5 rows of fruit names".toList) none "f".toList
      "dt".toList (fun _ => none) =
      some (⟨200, "✅ Command received to generate csv.".toList, none,
             some "generate_file".toList, some "csv".toList,
             some "5 rows of fruit names".toList, none, none, false⟩, []) := by
  exact ((C7_direct_command [] "Generate CSV: 5 rows of fruit names".toList none "f".toList
    "dt".toList (fun _ => none)).1 (by decide)).trans (by decide)

/-- C10.  Frame property of the `/chat` direct-command short circuit: the
store is returned untouched (no session created or mutated) and the
response `sessionId` is the request's `sessionId` echoed verbatim — hence
absent when the client supplied none. -/
theorem C10_shortcircuit_frame (store : Store) (q : Str) (sid : Option Str) (fresh dt : Str)
    (inf : List Message → Option Str)
    (h : genCsvCmd.isPrefixOf (toLowerStr q) = true ∨
         genImageCmd.isPrefixOf (toLowerStr q) = true ∨
         showImageCmd.isPrefixOf (toLowerStr q) = true) :
    (chatHandler store (some q) sid fresh dt inf).map Prod.snd = some store ∧
    (chatHandler store (some q) sid fresh dt inf).map (fun p => p.1.sessionId) = some sid := by
  by_cases hc : genCsvCmd.isPrefixOf (toLowerStr q)
  · constructor <;> simp [chatHandler, hc]
  · have hc' : genCsvCmd.isPrefixOf (toLowerStr q) = false := eq_false_of_ne_true hc
    by_cases hgi : genImageCmd.isPrefixOf (toLowerStr q)
    · constructor <;> simp [chatHandler, hc', hgi]
    · have hgi' : genImageCmd.isPrefixOf (toLowerStr q) = false := eq_false_of_ne_true hgi
      have hsi : showImageCmd.isPrefixOf (toLowerStr q) = true := by
        rcases h with h | h | h
        · rw [h] at hc'
          cases hc'
        · rw [h] at hgi'
          cases hgi'
        · exact h
      constructor <;> simp [chatHandler, hc', hgi', hsi]

/-- C10 (witness): a direct image command with no supplied session id, on a
non-empty store, touches nothing and echoes the absent id. -/
theorem C10_witness :
    (chatHandler [("k".toList, emptySession)] (some "generate image: a cat".toList) none
      "f".toList "dt".toList (fun _ => none)).map Prod.snd =
        some [("k".toList, emptySession)] ∧
    (chatHandler [("k".toList, emptySession)] (some "generate image: a cat".toList) none
      "f".toList "dt".toList (fun _ => none)).map (fun p => p.1.sessionId) = some none :=
  C10_shortcircuit_frame [("k".toList, emptySession)] "generate image: a cat".toList none
    "f".toList "dt".toList (fun _ => none) (Or.inr (Or.inl (by decide)))

/-- C9.  Clear-history semantics: a truthy known id returns success and
deletes the store entry — a subsequent resolve of that id allocates a
brand-new empty session; an unknown, empty or missing id returns the
404 error without modifying the store. -/
theorem C9_clear_history (store : Store) (fresh : Str) :
    (∀ id sess, id.isEmpty = false → findSession store id = some sess →
        clearChatHandler store (some id) =
          (⟨200, some ("✅ Conversation history cleared for session: ".toList ++ id), none⟩,
           eraseSession store id)
      ∧ findSession (eraseSession store id) id = none
      ∧ resolveSession (eraseSession store id) (some id) fresh =
          (fresh, emptySession, setSession (eraseSession store id) fresh emptySession))
  ∧ (∀ id, id.isEmpty = false → findSession store id = none →
      clearChatHandler store (some id) = (⟨404, none, some clearNotFoundText⟩, store))
  ∧ (∀ id, id.isEmpty = true →
      clearChatHandler store (some id) = (⟨404, none, some clearNotFoundText⟩, store))
  ∧ clearChatHandler store none = (⟨404, none, some clearNotFoundText⟩, store) := by
  refine ⟨?_, ?_, ?_, rfl⟩
  · intro id sess hid hf
    refine ⟨?_, findSession_eraseSession_self store id, ?_⟩
    · simp [clearChatHandler, hid, hf]
    · simp [resolveSession, hid, findSession_eraseSession_self store id]
  · intro id hid hf
    simp [clearChatHandler, hid, hf]
  · intro id hid
    simp [clearChatHandler, hid]

/-- C9 (witness): clearing the only session empties the store. -/
theorem C9_witness :
    clearChatHandler [("a".toList, emptySession)] (some "a".toList) =
      (⟨200, some ("✅ Conversation history cleared for session: ".toList ++ "a".toList),
        none⟩, []) := by
  exact (((C9_clear_history [("a".toList, emptySession)] "x".toList).1 "a".toList emptySession
    (by decide) (by decide)).1).trans (by decide)

/-- C8 (counterexample).  The empty-result branch of `/generate-csv` does
not use a success status: with a non-empty prompt and a model response whose
final CSV text is empty, the endpoint responds with HTTP status 500 (while
carrying the explicit empty-result message). -/
theorem C8_empty_csv_counterexample :
    (generateCsvHandler [] (some "x".toList) none (fun _ => none) (fun _ => some [])).1.status
      = 500 ∧
    (generateCsvHandler [] (some "x".toList) none (fun _ => none) (fun _ => some [])).1.message
      = "❌ Generated empty CSV. Please refine your prompt or data.".toList ∧
    (generateCsvHandler [] (some "x".toList) none (fun _ => none) (fun _ => some [])).1.status
      ≠ 200 := by
  refine ⟨?_, ?_, ?_⟩ <;> decide

/-- C8 (amended).  When the `/generate-csv` pipeline's final CSV text trims
to empty, the endpoint responds with HTTP status 500 — a hard-error status,
not a success status — but with the distinguishable soft-failure payload:
the explicit empty-result message, an empty `csvContent` and the fixed
`empty_generated.csv` file name (unlike the generic failure envelope, which
carries an `error` field and no `csvContent`); the store is untouched. -/
theorem C8_empty_csv_amended (store : Store) (p sid : Option Str)
    (jsonParse : Str → Option (List Record)) (inf : Str → Option Str) (raw : Str)
    (hp : promptFalsy p = false)
    (hinf : inf (genCsvFullPrompt store (p.getD []) sid ++ jsonOutputInstruction) = some raw)
    (hempty : (trimStr (finalCsvOf jsonParse raw)).isEmpty = true) :
    generateCsvHandler store p sid jsonParse inf =
      (⟨500, "❌ Generated empty CSV. Please refine your prompt or data.".toList,
        some [], some "empty_generated.csv".toList, none, none⟩, store) := by
  simp [generateCsvHandler, hp, hinf, hempty]

/-- C8 (witness): the amended behaviour at an empty raw model response. -/
theorem C8_witness :
    generateCsvHandler [] (some "x".toList) none (fun _ => none) (fun _ => some []) =
      (⟨500, "❌ Generated empty CSV. Please refine your prompt or data.".toList,
        some [], some "empty_generated.csv".toList, none, none⟩, []) :=
  C8_empty_csv_amended [] (some "x".toList) none (fun _ => none) (fun _ => some []) []
    (by decide) rfl (by decide)

/-- C3 (counterexample).  `/analyze-image` performs no rollback: after an
inference failure on a fresh session, the session's history still holds the
system message and the just-pushed user message (the claim requires the user
message popped and net-zero growth). -/
theorem C3_rollback_counterexample :
    (analyzeImageHandler [] (some "img".toList) none none "s1".toList (fun _ => none)
        (fun _ => none)).1.status = 500 ∧
    ((findSession (analyzeImageHandler [] (some "img".toList) none none "s1".toList
        (fun _ => none) (fun _ => none)).2 "s1".toList).map
      (fun s => s.history.map Message.role)) = some [.system, .user] := by
  constructor <;> decide

/-- C3 (amended).  Inference-failure rollback, per handler: `/chat` on a
known session pops the just-pushed user message (and the tool-output
message, if any), restoring the history exactly (net zero); `/chat` on a
fresh session retains the newly created priming system message (net one
message relative to the absent session); `/analyze-csv` and `/analyze-pdf`
pop the just-pushed user message but keep the system message pushed earlier
in the same call (net one) and keep the stored analyzed data;
`/analyze-image` rolls back nothing — both its system and user messages
remain (net two), and the analyzed image stays stored. -/
theorem C3_rollback_amended (store : Store) (id : Str) (sess : Session)
    (q fresh dt : Str) (prompt : Option Str) (csvText : Str) (recs : List Record)
    (txt img pdfRaw : Str) (jsonParse : Str → Option (List Record))
    (hfind : findSession store id = some sess) (hid : id.isEmpty = false)
    (h1 : genCsvCmd.isPrefixOf (toLowerStr q) = false)
    (h2 : genImageCmd.isPrefixOf (toLowerStr q) = false)
    (h3 : showImageCmd.isPrefixOf (toLowerStr q) = false)
    (hparse : csvToJson csvText = some recs) (hcsvne : csvText.isEmpty = false)
    (hpdfne : pdfRaw.isEmpty = false) (himgne : img.isEmpty = false) :
    chatHandler store (some q) (some id) fresh dt (fun _ => none) =
      some (⟨500, "❌ Failed to get chat response".toList, none, none, none, none,
             some inferenceErrText, some id, true⟩, setSession store id sess)
  ∧ chatHandler store (some q) none fresh dt (fun _ => none) =
      some (⟨500, "❌ Failed to get chat response".toList, none, none, none, none,
             some inferenceErrText, some fresh, true⟩,
            setSession store fresh (chatPrimedSession dt))
  ∧ analyzeCsvHandler store (some csvText) prompt (some id) fresh (fun _ => none) =
      (⟨500, some "❌ Failed to analyze CSV".toList, none, none, none, none, none,
        some inferenceErrText, some id, true⟩,
       setSession store id
         ⟨sess.history ++ [mkMsg .system csvSystemContent], some (.records recs), none⟩)
  ∧ analyzePdfHandler store (some pdfRaw) prompt (some id) fresh (some txt)
      (fun _ => none) =
      (⟨500, some "❌ Failed to analyze PDF".toList, none, none, none, none, none,
        some inferenceErrText, some id, true⟩,
       setSession store id
         ⟨sess.history ++ [mkMsg .system pdfSystemContent], some (.text txt), none⟩)
  ∧ analyzeImageHandler store (some img) prompt (some id) fresh jsonParse
      (fun _ => none) =
      (⟨500, some "❌ Failed to analyze image".toList, none, none, none, none, none,
        some inferenceErrText, some id, true⟩,
       setSession store id
         ⟨sess.history ++ [mkMsg .system imageSystemContent,
            ⟨.user, promptOrDefault prompt imageDefaultPrompt, [img]⟩], none, some img⟩) := by
  refine ⟨?_, ?_, ?_, ?_, ?_⟩
  · cases htool : dispatchTool dt q with
    | none =>
        simp [chatHandler, resolveChatSession, hid, hfind, h1, h2, h3, htool,
          List.dropLast_concat]
    | some td =>
        simp [chatHandler, resolveChatSession, hid, hfind, h1, h2, h3, htool,
          List.dropLast_concat]
  · cases htool : dispatchTool dt q with
    | none =>
        simp [chatHandler, resolveChatSession, chatPrimedSession, h1, h2, h3, htool,
          List.dropLast_concat, setSession_setSession]
    | some td =>
        simp [chatHandler, resolveChatSession, chatPrimedSession, h1, h2, h3, htool,
          List.dropLast_concat, setSession_setSession]
  · simp [analyzeCsvHandler, resolveSession, hid, hfind, falsyOpt, hcsvne, hparse,
      popUserGuard, List.getLast?_concat, List.dropLast_concat, setSession_setSession, mkMsg]
  · simp [analyzePdfHandler, resolveSession, hid, hfind, falsyOpt, hpdfne,
      popUserGuard, List.getLast?_concat, List.dropLast_concat, setSession_setSession, mkMsg]
  · simp [analyzeImageHandler, resolveSession, hid, hfind, falsyOpt, himgne,
      setSession_setSession, mkMsg]

/-- C3 (witness): the net-zero `/chat` rollback on a concrete known
session. -/
theorem C3_witness :
    chatHandler [("s".toList, ⟨[mkMsg .user "hi".toList], none, none⟩)]
      (some "hello".toList) (some "s".toList) "f".toList "dt".toList (fun _ => none) =
      some (⟨500, "❌ Failed to get chat response".toList, none, none, none, none,
             some inferenceErrText, some "s".toList, true⟩,
            [("s".toList, ⟨[mkMsg .user "hi".toList], none, none⟩)]) := by
  exact ((C3_rollback_amended [("s".toList, ⟨[mkMsg .user "hi".toList], none, none⟩)]
    "s".toList ⟨[mkMsg .user "hi".toList], none, none⟩ "hello".toList "f".toList "dt".toList
    none "a\n1\n".toList [[("a".toList, "1".toList)]] "t".toList "i".toList "p".toList
    (fun _ => none) (by decide) (by decide) (by decide) (by decide) (by decide) (by decide)
    (by decide) (by decide) (by decide)).1).trans (by decide)

/-- C4 (counterexample).  The analyze-* handlers push their task system
message unconditionally: a second `/analyze-csv` call on the same session
(whose history already holds three messages) pushes another system message,
so the session ends with two system messages — contradicting both the
only-when-empty priming rule and the exactly-one-system-message invariant. -/
theorem C4_priming_counterexample :
    ((findSession (analyzeCsvHandler [] (some "a\n1\n".toList) none none "s1".toList
        (fun _ => some "ok".toList)).2 "s1".toList).map
      (fun s => s.history.map Message.role) = some [.system, .user, .assistant]) ∧
    ((findSession (analyzeCsvHandler
          (analyzeCsvHandler [] (some "a\n1\n".toList) none none "s1".toList
            (fun _ => some "ok".toList)).2
          (some "a\n2\n".toList) none (some "s1".toList) "s2".toList
          (fun _ => some "ok".toList)).2 "s1".toList).map
      (fun s => s.history.map Message.role) =
      some [.system, .user, .assistant, .system, .user, .assistant]) := by
  constructor <;> decide

/-- C4 (amended).  System-message discipline as implemented: `/chat` pushes
its priming system message exactly when it creates the session (a known
session receives no new leading system message — only the optional mid-turn
tool-output message); each analyze-* handler pushes its task system message
on every call, regardless of the session's existing history, so analyze
sessions accumulate one system message per call. -/
theorem C4_priming_amended (store : Store) (id : Str) (sess : Session)
    (q fresh dt resp : Str) (prompt : Option Str) (csvText : Str) (recs : List Record)
    (txt img pdfRaw : Str) (jsonParse : Str → Option (List Record))
    (hfind : findSession store id = some sess) (hid : id.isEmpty = false)
    (h1 : genCsvCmd.isPrefixOf (toLowerStr q) = false)
    (h2 : genImageCmd.isPrefixOf (toLowerStr q) = false)
    (h3 : showImageCmd.isPrefixOf (toLowerStr q) = false)
    (hparse : csvToJson csvText = some recs) (hcsvne : csvText.isEmpty = false)
    (hpdfne : pdfRaw.isEmpty = false) (himgne : img.isEmpty = false)
    (hplain : (classifyImageFirst resp).kind = .none) :
    chatHandler store (some q) (some id) fresh dt (fun _ => some resp) =
      some (⟨200, "✅ Chat response received".toList, some resp,
             directiveAction (classifyCsvFirst resp),
             directiveFileType (classifyCsvFirst resp),
             directiveGenPrompt (classifyCsvFirst resp), none, some id, true⟩,
            setSession store id
              ⟨sess.history ++
                 ((match dispatchTool dt q with
                   | some td => [toolOutputMsg td]
                   | none => []) ++ [mkMsg .user q, mkMsg .assistant resp]),
               sess.analyzedData, sess.analyzedImage⟩)
  ∧ chatHandler store (some q) none fresh dt (fun _ => some resp) =
      some (⟨200, "✅ Chat response received".toList, some resp,
             directiveAction (classifyCsvFirst resp),
             directiveFileType (classifyCsvFirst resp),
             directiveGenPrompt (classifyCsvFirst resp), none, some fresh, true⟩,
            setSession store fresh
              ⟨mkMsg .system (chatSystemContent dt) ::
                 ((match dispatchTool dt q with
                   | some td => [toolOutputMsg td]
                   | none => []) ++ [mkMsg .user q, mkMsg .assistant resp]),
               none, none⟩)
  ∧ analyzeCsvHandler store (some csvText) prompt (some id) fresh (fun _ => some resp) =
      (⟨200, some "✅ CSV analysis complete".toList, some resp,
        directiveAction (classifyCsvFirst resp), directiveFileType (classifyCsvFirst resp),
        directiveGenPrompt (classifyCsvFirst resp), none, none, some id, true⟩,
       setSession store id
         ⟨sess.history ++ [mkMsg .system csvSystemContent,
            mkMsg .user (csvUserContent (promptOrDefault prompt csvDefaultPrompt) recs),
            mkMsg .assistant resp],
          some (.records recs), none⟩)
  ∧ analyzePdfHandler store (some pdfRaw) prompt (some id) fresh (some txt)
      (fun _ => some resp) =
      (⟨200, some "✅ PDF analysis complete".toList, some resp,
        directiveAction (classifyCsvFirst resp), directiveFileType (classifyCsvFirst resp),
        directiveGenPrompt (classifyCsvFirst resp), none, none, some id, true⟩,
       setSession store id
         ⟨sess.history ++ [mkMsg .system pdfSystemContent,
            mkMsg .user (pdfUserContent (promptOrDefault prompt pdfDefaultPrompt) txt),
            mkMsg .assistant resp],
          some (.text txt), none⟩)
  ∧ analyzeImageHandler store (some img) prompt (some id) fresh jsonParse
      (fun _ => some resp) =
      (⟨200, some "✅ Image analysis complete".toList, some resp, none, none, none, none,
        none, some id, true⟩,
       setSession store id
         ⟨sess.history ++ [mkMsg .system imageSystemContent,
            ⟨.user, promptOrDefault prompt imageDefaultPrompt, [img]⟩,
            mkMsg .assistant resp],
          none, some img⟩) := by
  refine ⟨?_, ?_, ?_, ?_, ?_⟩
  · cases htool : dispatchTool dt q with
    | none =>
        simp [chatHandler, resolveChatSession, hid, hfind, h1, h2, h3, htool]
    | some td =>
        simp [chatHandler, resolveChatSession, hid, hfind, h1, h2, h3, htool]
  · cases htool : dispatchTool dt q with
    | none =>
        simp [chatHandler, resolveChatSession, chatPrimedSession, h1, h2, h3, htool,
          setSession_setSession]
    | some td =>
        simp [chatHandler, resolveChatSession, chatPrimedSession, h1, h2, h3, htool,
          setSession_setSession]
  · simp [analyzeCsvHandler, resolveSession, hid, hfind, falsyOpt, hcsvne, hparse,
      setSession_setSession, mkMsg]
  · simp [analyzePdfHandler, resolveSession, hid, hfind, falsyOpt, hpdfne,
      setSession_setSession, mkMsg]
  · have himp : imageMarker.isPrefixOf resp = false := by
      by_cases h : imageMarker.isPrefixOf resp
      · exfalso
        rw [show classifyImageFirst resp =
            ⟨.generate_image, trimStr (resp.drop imageMarker.length)⟩ from by
          simp [classifyImageFirst, h]] at hplain
        simp at hplain
      · exact eq_false_of_ne_true h
    have hcsvp : csvMarker.isPrefixOf resp = false := by
      by_cases h : csvMarker.isPrefixOf resp
      · exfalso
        rw [show classifyImageFirst resp =
            ⟨.generate_csv, trimStr (resp.drop csvMarker.length)⟩ from by
          simp [classifyImageFirst, himp, h]] at hplain
        simp at hplain
      · exact eq_false_of_ne_true h
    simp [analyzeImageHandler, resolveSession, hid, hfind, falsyOpt, himgne,
      setSession_setSession, mkMsg, classifyImageFirst, himp, hcsvp]

/-- C4 (witness): a second-call system push observed concretely via the
amended statement's analyze-csv clause. -/
theorem C4_witness :
    (analyzeCsvHandler [("s".toList, ⟨[mkMsg .user "hi".toList], none, none⟩)]
      (some "a\n1\n".toList) none (some "s".toList) "f".toList
      (fun _ => some "ok".toList)).2 =
      setSession [("s".toList, ⟨[mkMsg .user "hi".toList], none, none⟩)] "s".toList
        ⟨[mkMsg .user "hi".toList] ++ [mkMsg .system csvSystemContent,
           mkMsg .user (csvUserContent csvDefaultPrompt [[("a".toList, "1".toList)]]),
           mkMsg .assistant "ok".toList],
         some (.records [[("a".toList, "1".toList)]]), none⟩ := by
  have h := (C4_priming_amended [("s".toList, ⟨[mkMsg .user "hi".toList], none, none⟩)]
    "s".toList ⟨[mkMsg .user "hi".toList], none, none⟩ "hello".toList "f".toList "dt".toList
    "ok".toList none "a\n1\n".toList [[("a".toList, "1".toList)]] "t".toList "i".toList
    "p".toList (fun _ => none) (by decide) (by decide) (by decide) (by decide) (by decide)
    (by decide) (by decide) (by decide) (by decide) (by decide)).2.2.1
  exact congrArg Prod.snd h

set_option maxRecDepth 4000 in
/-- C5 (counterexample).  `/analyze-csv` with a missing `csv` field on an
existing session responds with the client error but has already mutated the
session: the previously analyzed image is cleared and a system message has
been pushed onto the history. -/
theorem C5_validation_counterexample :
    ((analyzeCsvHandler [("s".toList, ⟨[mkMsg .user "hi".toList], none, some "img".toList⟩)]
        none none (some "s".toList) "f".toList (fun _ => none)).1.status = 400) ∧
    (findSession (analyzeCsvHandler
        [("s".toList, ⟨[mkMsg .user "hi".toList], none, some "img".toList⟩)]
        none none (some "s".toList) "f".toList (fun _ => none)).2 "s".toList =
      some ⟨[mkMsg .user "hi".toList, mkMsg .system csvSystemContent], none, none⟩) := by
  constructor <;> decide

/-- C5 (amended).  Validation behaviour as implemented: `/generate-csv` and
`/generate-image` reject a missing/blank prompt with a client error and no
side effects; `/analyze-csv` with a missing `csv` field responds 400 but has
already cleared the session's analyzed fields and pushed its system message;
`/analyze-pdf` with a missing `pdf` field responds 400 after clearing the
analyzed fields (history untouched); `/analyze-image` with a missing `image`
field responds 400 after clearing the analyzed fields and pushing its system
message; `/chat` performs no validation at all — a missing `question` throws
before any response is produced, leaving the store untouched. -/
theorem C5_validation_amended (store : Store) (id : Str) (sess : Session)
    (prompt sid p : Option Str) (fresh dt : Str) (pdfText : Option Str)
    (jsonParse : Str → Option (List Record))
    (infC : List Message → Option Str) (infG : Str → Option Str)
    (infI : Str → List Str → Option Str)
    (hfind : findSession store id = some sess) (hid : id.isEmpty = false)
    (hp : promptFalsy p = true) :
    generateCsvHandler store p sid jsonParse infG =
      (⟨400, "❌ Prompt for CSV generation cannot be empty.".toList,
        none, none, none, none⟩, store)
  ∧ generateImageHandler store p sid infI =
      (⟨400, "❌ Prompt for Image analysis/processing cannot be empty.".toList,
        none, none, none, none⟩, store)
  ∧ analyzeCsvHandler store none prompt (some id) fresh infC =
      (⟨400, none, none, none, none, none, none,
        some "❌ No CSV content provided.".toList, none, false⟩,
       setSession store id ⟨sess.history ++ [mkMsg .system csvSystemContent], none, none⟩)
  ∧ analyzePdfHandler store none prompt (some id) fresh pdfText infC =
      (⟨400, none, none, none, none, none, none,
        some "❌ No PDF data (base64) provided.".toList, none, false⟩,
       setSession store id ⟨sess.history, none, none⟩)
  ∧ analyzeImageHandler store none prompt (some id) fresh jsonParse infC =
      (⟨400, none, none, none, none, none, none,
        some "❌ No image data (base64) provided.".toList, none, false⟩,
       setSession store id ⟨sess.history ++ [mkMsg .system imageSystemContent], none, none⟩)
  ∧ chatHandler store none sid fresh dt infC = none := by
  refine ⟨?_, ?_, ?_, ?_, ?_, rfl⟩
  · simp [generateCsvHandler, hp]
  · simp [generateImageHandler, hp]
  · simp [analyzeCsvHandler, resolveSession, hid, hfind, falsyOpt, mkMsg]
  · simp [analyzePdfHandler, resolveSession, hid, hfind, falsyOpt, mkMsg]
  · simp [analyzeImageHandler, resolveSession, hid, hfind, falsyOpt, mkMsg]

/-- C5 (witness): `/chat` with a missing question produces no response. -/
theorem C5_witness :
    chatHandler [("s".toList, emptySession)] none none "f".toList "dt".toList
      (fun _ => none) = none :=
  (C5_validation_amended [("s".toList, emptySession)] "s".toList emptySession none none
    none "f".toList "dt".toList none (fun _ => none) (fun _ => none) (fun _ => none)
    (fun _ _ => none) (by decide) (by decide) (by decide)).2.2.2.2.2

end OllamaAssistant
